import Mathlib

/-!
Shallow embedding of the task-execution core of the Starry repository:
the task control block (`SchedInfo`) and its kernel stack, the per-CPU
current-task ownership protocol (`CurrentCtx`), the lazy address-space
switch (`switch_mm`) over the RISC-V page-table-root register, and the
Linux system-call dispatcher (`handle_syscall`, `linux_syscall_read`).

Machine integers are modelled as `Nat` (the code never relies on usize
overflow in the modelled paths); fallible or panicking code returns
`Option`, with `none` standing for the panic/abort path; hardware and
allocator state is passed explicitly.
-/

namespace Starry

/-! ## Arithmetic helpers from the memory_addr crate -/

/-- Source `memory_addr::align_down(addr, align)`: rounds `addr` down to a
multiple of `align` (the crate requires `align` to be a power of two, for
which the bitmask form agrees with truncating division). -/
def alignDown (addr align : Nat) : Nat := addr / align * align

/-- Source `memory_addr::align_up(addr, align)`: rounds `addr` up to a
multiple of `align`. -/
def alignUp (addr align : Nat) : Nat := (addr + align - 1) / align * align

/-- Source `memory_addr::PAGE_SIZE_4K`. -/
def PAGE_SIZE_4K : Nat := 4096

/-- Source `memory_addr::align_up_4k`. -/
def align_up_4k (addr : Nat) : Nat := alignUp addr PAGE_SIZE_4K

/-- Source `taskctx::THREAD_SIZE = 32 * PAGE_SIZE_4K`. -/
def THREAD_SIZE : Nat := 32 * PAGE_SIZE_4K

/-! ## Architecture register interface (axhal/src/arch/riscv/mod.rs)

The hardware state visible to the modelled primitives: the PPN field of
the `satp` register, plus event counters for root-register writes and
full TLB invalidations, so that "no write / no flush happened" is a
statement about the final state. -/

structure MmState where
  satpPpn : Nat
  rootWrites : Nat
  tlbFlushes : Nat
  deriving Repr, DecidableEq

/-- Source `read_page_table_root()`: returns `PhysAddr::from(satp::read().ppn() << 12)`. -/
def read_page_table_root (s : MmState) : Nat := s.satpPpn * 4096

/-- Source `write_page_table_root(root_paddr)`: reads the old root; if it
differs from `root_paddr`, executes `satp::set(Sv39, 0, root_paddr >> 12)`
followed by `sfence_vma_all()` (a full TLB invalidation); otherwise does
nothing. -/
def write_page_table_root (root_paddr : Nat) (s : MmState) : MmState :=
  if read_page_table_root s ≠ root_paddr then
    { satpPpn := root_paddr / 4096
      rootWrites := s.rootWrites + 1
      tlbFlushes := s.tlbFlushes + 1 }
  else
    s

/-- Modelled from the spec: `axhal::arch::write_page_table_root0` is called
by `taskctx::switch_mm` but its definition is not among the provided source
files; per the spec (§4.5 with §4.1) the switch path writes the new root
"via the Architecture Register Interface, which itself performs the TLB
invalidation as described in §4.1", i.e. it has the semantics of
`write_page_table_root`. -/
def write_page_table_root0 (root_paddr : Nat) (s : MmState) : MmState :=
  write_page_table_root root_paddr s

/-- An `Arc<SpinNoIrq<PageTable>>` address-space handle: the shared page
table object, reduced to the Arc identity (so that handle sharing is
observable) and the root physical address returned by `root_paddr()`. -/
structure PageTableHandle where
  arcId : Nat
  root_paddr : Nat
  deriving Repr, DecidableEq

/-- Source `taskctx::switch_mm(prev_mm_id, next_mm_id, next_pgd)`: returns
immediately when the two identities are equal, otherwise writes
`next_pgd.lock().root_paddr()` through `write_page_table_root0`. -/
def switch_mm (prev_mm_id next_mm_id : Nat) (next_pgd : PageTableHandle)
    (s : MmState) : MmState :=
  if prev_mm_id = next_mm_id then s
  else write_page_table_root0 next_pgd.root_paddr s

end Starry

namespace Starry

/-! ## Claims C2, C3, C4 -/

/-- Claim C2: `switch_mm(a, a, h)` returns immediately: it performs no
page-table-root register write, no TLB flush, and leaves the loaded
page-table root unchanged (indeed the whole machine state is untouched). -/
theorem c2_switch_mm_same_id_noop (a : Nat) (h : PageTableHandle) (s : MmState) :
    switch_mm a a h s = s ∧
    (switch_mm a a h s).rootWrites = s.rootWrites ∧
    (switch_mm a a h s).tlbFlushes = s.tlbFlushes ∧
    read_page_table_root (switch_mm a a h s) = read_page_table_root s := by
  have hs : switch_mm a a h s = s := by
    unfold switch_mm
    simp
  exact ⟨hs, by rw [hs], by rw [hs], by rw [hs]⟩

/-- Claim C3: for distinct identities `a ≠ b` and a valid handle (a page
table root is a physical page address, hence 4 KiB aligned), after
`switch_mm a b h` the loaded page-table root reads back as exactly the
handle's root physical address. -/
theorem c3_switch_mm_loads_root (a b : Nat) (h : PageTableHandle) (s : MmState)
    (hne : a ≠ b) (halign : 4096 ∣ h.root_paddr) :
    read_page_table_root (switch_mm a b h s) = h.root_paddr := by
  unfold switch_mm write_page_table_root0 write_page_table_root
  rw [if_neg hne]
  by_cases hcur : read_page_table_root s ≠ h.root_paddr
  · rw [if_pos hcur]
    unfold read_page_table_root
    exact Nat.div_mul_cancel halign
  · rw [if_neg hcur]
    exact not_not.mp hcur

/-- Witness for C3 at concrete inputs. -/
theorem c3_switch_mm_loads_root_witness :
    read_page_table_root (switch_mm 1 2 ⟨7, 0x8020000⟩ ⟨0, 0, 0⟩) = 0x8020000 :=
  c3_switch_mm_loads_root 1 2 ⟨7, 0x8020000⟩ ⟨0, 0, 0⟩ (by decide) (by decide)

/-- Claim C4: `write_page_table_root r` is a no-op (no root write, no TLB
flush, state untouched) when `r` equals the currently loaded root, and when
`r` differs it loads `r` as the translation root (the satp PPN becomes
`r >> 12`) and performs exactly one full TLB invalidation. -/
theorem c4_write_page_table_root_cases (r : Nat) (s : MmState) :
    (read_page_table_root s = r → write_page_table_root r s = s) ∧
    (read_page_table_root s ≠ r →
      (write_page_table_root r s).satpPpn = r / 4096 ∧
      (write_page_table_root r s).rootWrites = s.rootWrites + 1 ∧
      (write_page_table_root r s).tlbFlushes = s.tlbFlushes + 1) := by
  constructor
  · intro heq
    unfold write_page_table_root
    simp [heq]
  · intro hne
    unfold write_page_table_root
    simp [hne]

/-- Witness for C4, exercising both branches at concrete states. -/
theorem c4_write_page_table_root_cases_witness :
    write_page_table_root 8192 ⟨2, 5, 5⟩ = ⟨2, 5, 5⟩ ∧
    (write_page_table_root 4096 ⟨2, 5, 5⟩).satpPpn = 1 ∧
    (write_page_table_root 4096 ⟨2, 5, 5⟩).rootWrites = 6 ∧
    (write_page_table_root 4096 ⟨2, 5, 5⟩).tlbFlushes = 6 := by
  refine ⟨(c4_write_page_table_root_cases 8192 ⟨2, 5, 5⟩).1 (by decide), ?_⟩
  exact (c4_write_page_table_root_cases 4096 ⟨2, 5, 5⟩).2 (by decide)

/-! ## Current-task registry and reference counting (taskctx, `CurrentCtx`)

`Arc<SchedInfo>` blocks are identified by their raw pointer (a `Nat`,
with `0` the null pointer; a live `Arc` pointer is never null).  The
state tracks every block's strong reference count (`0` means the block
has been deallocated) together with the per-CPU current-task slot read
and written through `axhal::cpu::{current_task_ptr, set_current_task_ptr}`. -/

structure RcState where
  strong : Nat → Nat
  slot : Nat

/-- A block is allocated exactly while some strong reference to it exists. -/
def RcState.allocated (s : RcState) (p : Nat) : Prop := 0 < s.strong p

/-- Dropping one `Arc` handle to block `p`: the strong count decreases by
one (reaching `0` deallocates the block). -/
def arcDrop (p : Nat) (s : RcState) : RcState :=
  { s with strong := fun q => if q = p then s.strong q - 1 else s.strong q }

/-- `Arc::clone` on a handle to block `p`: one additional strong reference. -/
def arcClone (p : Nat) (s : RcState) : RcState :=
  { s with strong := fun q => if q = p then s.strong q + 1 else s.strong q }

/-- The `CurrentCtx` wrapper: a `ManuallyDrop<CtxRef>` reconstituted from
the raw pointer in the per-CPU slot.  It is a view: a pointer, no count. -/
structure CurrentCtx where
  ptr : Nat
  deriving Repr, DecidableEq

/-- Source `CurrentCtx::try_get()`: reads the per-CPU slot; if non-null,
rebuilds the handle via `CtxRef::from_raw` wrapped in `ManuallyDrop::new`
(neither touches the reference count), else returns `None`.  The state is
returned unchanged: the read performs no count operation. -/
def CurrentCtx.try_get (s : RcState) : Option CurrentCtx × RcState :=
  if s.slot ≠ 0 then (some ⟨s.slot⟩, s) else (none, s)

/-- Source `CurrentCtx::get()`: `try_get().expect(...)`; `none` models the
panic on a null slot. -/
def CurrentCtx.get (s : RcState) : Option CurrentCtx :=
  (CurrentCtx.try_get s).1

/-- Dropping a `CurrentCtx` view: the `ManuallyDrop` wrapper suppresses the
inner `Arc` destructor, so the state is untouched by construction. -/
def CurrentCtx.dropView (_c : CurrentCtx) (s : RcState) : RcState := s

/-- Source `CurrentCtx::set_current(prev, next)` up to the point where the
new pointer has been published: `ManuallyDrop::into_inner(arc)` releases the
strong reference the `prev` view stood for, then `Arc::into_raw(next.clone())`
creates one additional strong reference to `next` and
`set_current_task_ptr` publishes it into the per-CPU slot. -/
def set_current_published (prev : CurrentCtx) (next : Nat) (s : RcState) : RcState :=
  let s1 := arcDrop prev.ptr s
  let s2 := arcClone next s1
  { s2 with slot := next }

/-- Source `CurrentCtx::set_current(prev, next)` in full: the published
state above, followed by the drop of the by-value `next: CtxRef` argument
when the function returns (the caller moved its own handle in). -/
def set_current (prev : CurrentCtx) (next : Nat) (s : RcState) : RcState :=
  arcDrop next (set_current_published prev next s)

/-! ## Claims C1, C7 -/

/-- Claim C1: after `set_current(prev, next)` on a state whose slot holds
`prev` (as obtained from `try_get`/`get`), the per-CPU slot holds `next`
and a subsequent `get()` observes `next`; exactly one strong reference to
`prev`'s block has been released, and `prev`'s block stays allocated while
any other strong reference to it exists; the clone-and-publish step created
exactly one additional strong reference to `next` and published it into the
slot, and that published reference keeps `next` allocated after the call. -/
theorem c1_set_current_spec (s : RcState) (prev : CurrentCtx) (next : Nat)
    (hslot : s.slot = prev.ptr) (hprev : 1 ≤ s.strong prev.ptr)
    (hnn : next ≠ 0) (hne : prev.ptr ≠ next) :
    (set_current prev next s).slot = next ∧
    CurrentCtx.get (set_current prev next s) = some ⟨next⟩ ∧
    (set_current prev next s).strong prev.ptr = s.strong prev.ptr - 1 ∧
    (2 ≤ s.strong prev.ptr → (set_current prev next s).allocated prev.ptr) ∧
    (set_current_published prev next s).strong next = (arcDrop prev.ptr s).strong next + 1 ∧
    (set_current_published prev next s).slot = next ∧
    (1 ≤ s.strong next → (set_current prev next s).allocated next) := by
  have hne2 : next ≠ prev.ptr := fun hq => hne hq.symm
  have hvprev : (set_current prev next s).strong prev.ptr = s.strong prev.ptr - 1 := by
    simp [set_current, set_current_published, arcDrop, arcClone, hne, hne2]
  have hvnext : (set_current prev next s).strong next = s.strong next := by
    simp [set_current, set_current_published, arcDrop, arcClone, hne2]
  constructor
  · simp [set_current, set_current_published, arcDrop, arcClone]
  constructor
  · simp [CurrentCtx.get, CurrentCtx.try_get, set_current, set_current_published,
      arcDrop, arcClone, hnn]
  constructor
  · exact hvprev
  constructor
  · intro h2
    simp only [RcState.allocated, hvprev]
    omega
  constructor
  · simp [set_current_published, arcDrop, arcClone, hne2]
  constructor
  · simp [set_current_published, arcDrop, arcClone]
  · intro h1
    simp only [RcState.allocated, hvnext]
    omega

/-- The concrete two-block state used by the C1 witness: block 1 (the
outgoing task) has two strong references (slot + run queue), block 2 (the
incoming task) has one (the scheduler's); the slot holds block 1. -/
def rcDemo : RcState :=
  { strong := fun q => if q = 1 then 2 else if q = 2 then 1 else 0
    slot := 1 }

/-- Witness for C1 at the concrete state `rcDemo`, switching block 1 out
and block 2 in. -/
theorem c1_set_current_spec_witness :
    (set_current ⟨1⟩ 2 rcDemo).slot = 2 ∧
    CurrentCtx.get (set_current ⟨1⟩ 2 rcDemo) = some ⟨2⟩ ∧
    (set_current ⟨1⟩ 2 rcDemo).strong 1 = 1 ∧
    (set_current ⟨1⟩ 2 rcDemo).allocated 1 ∧
    (set_current_published ⟨1⟩ 2 rcDemo).strong 2 = (arcDrop 1 rcDemo).strong 2 + 1 ∧
    (set_current_published ⟨1⟩ 2 rcDemo).slot = 2 ∧
    (set_current ⟨1⟩ 2 rcDemo).allocated 2 := by
  have h := c1_set_current_spec rcDemo ⟨1⟩ 2 (by simp [rcDemo]) (by simp [rcDemo])
    (by decide) (by decide)
  exact ⟨h.1, h.2.1, h.2.2.1, h.2.2.2.1 (by simp [rcDemo]), h.2.2.2.2.1,
    h.2.2.2.2.2.1, h.2.2.2.2.2.2 (by simp [rcDemo])⟩

/-- Claim C7: `try_get` returns nothing exactly when the per-CPU slot is
null; otherwise it returns a view of the task recorded in the slot while
leaving every reference count unchanged, and destroying that view also
leaves the state unchanged (the suppressed destructor never decrements);
`get` returns the same view when the slot is non-null and panics (`none`)
when the slot is null. -/
theorem c7_try_get_get_spec (s : RcState) :
    ((CurrentCtx.try_get s).1 = none ↔ s.slot = 0) ∧
    (s.slot ≠ 0 → (CurrentCtx.try_get s).1 = some ⟨s.slot⟩) ∧
    (CurrentCtx.try_get s).2 = s ∧
    (∀ c : CurrentCtx, CurrentCtx.dropView c s = s) ∧
    (s.slot ≠ 0 → CurrentCtx.get s = some ⟨s.slot⟩) ∧
    (s.slot = 0 → CurrentCtx.get s = none) := by
  refine ⟨?_, ?_, ?_, ?_, ?_, ?_⟩
  · constructor
    · intro h
      by_contra hnz
      simp [CurrentCtx.try_get, hnz] at h
    · intro h
      simp [CurrentCtx.try_get, h]
  · intro h
    simp [CurrentCtx.try_get, h]
  · unfold CurrentCtx.try_get
    by_cases h : s.slot ≠ 0 <;> simp [h]
  · intro c
    rfl
  · intro h
    simp [CurrentCtx.get, CurrentCtx.try_get, h]
  · intro h
    simp [CurrentCtx.get, CurrentCtx.try_get, h]

/-- Witness for C7: the non-null branch at `rcDemo` and the null branch at
the empty boot state. -/
theorem c7_try_get_get_spec_witness :
    (CurrentCtx.try_get rcDemo).1 = some ⟨1⟩ ∧
    CurrentCtx.get rcDemo = some ⟨1⟩ ∧
    (CurrentCtx.try_get { strong := fun _ => 0, slot := 0 }).1 = none ∧
    CurrentCtx.get { strong := fun _ => 0, slot := 0 } = none := by
  have h1 := c7_try_get_get_spec rcDemo
  have h2 := c7_try_get_get_spec { strong := fun _ => 0, slot := 0 }
  refine ⟨h1.2.1 (by simp [rcDemo]), ?_, ?_, ?_⟩
  · have := h1.2.2.2.2.1 (by simp [rcDemo])
    simpa [rcDemo] using this
  · exact h2.1.mpr rfl
  · exact h2.2.2.2.2.2 rfl

/-! ## Kernel stack and task control block (taskctx)

The global allocator behind `alloc::alloc::alloc(layout)` is modelled as a
bump allocator that honours the layout contract of
`Layout::from_size_align(size, 16)`: the returned base pointer is 16-byte
aligned and the fresh region lies beyond every earlier allocation. -/

structure AllocState where
  nextFree : Nat
  deriving Repr, DecidableEq

/-- Source `TaskStack { ptr, layout }`: the base pointer and the layout
(size; the alignment is fixed at 16 by `TaskStack::alloc`). -/
structure TaskStack where
  base : Nat
  size : Nat
  deriving Repr, DecidableEq

/-- Source `TaskStack::alloc(size)`: allocates `size` bytes with alignment
16 from the global allocator (modelled as the bump allocator). -/
def TaskStack.alloc (size : Nat) (a : AllocState) : TaskStack × AllocState :=
  let base := alignUp a.nextFree 16
  (⟨base, size⟩, ⟨base + size⟩)

/-- Source `TaskStack::top()`: `ptr + layout.size()`. -/
def TaskStack.top (st : TaskStack) : Nat := st.base + st.size

/-- Modelled from the spec: `axhal::arch::TaskContext` (the `ThreadStruct`
saved register context) is defined in `axhal/src/arch/riscv/context.rs`,
which is not among the provided source files; per the spec (§3, §4.3) it is
the saved callee context — return address, stack pointer, thread pointer —
and its constructor zero-initializes it. -/
structure ThreadStruct where
  ra : Nat
  sp : Nat
  tp : Nat
  deriving Repr, DecidableEq

/-- Modelled from the spec: `ThreadStruct::new()` zero-initializes the
saved register context. -/
def ThreadStruct.new : ThreadStruct := ⟨0, 0, 0⟩

/-- Source `SchedInfo`: the per-task record (`entry` and the interior
mutability wrappers are dropped; the atomics are plain `Nat` since each is
owned by one task). -/
structure SchedInfo where
  pid : Nat
  tgid : Nat
  pgd : Option PageTableHandle
  mm_id : Nat
  active_mm_id : Nat
  kstack : Option TaskStack
  thread : ThreadStruct
  deriving Repr, DecidableEq

/-- Source `SchedInfo::new(pid)`. -/
def SchedInfo.new (pid : Nat) : SchedInfo :=
  { pid := pid
    tgid := pid
    pgd := none
    mm_id := 0
    active_mm_id := 0
    kstack := none
    thread := ThreadStruct.new }

/-- Source `SchedInfo::try_pgd()`: clones the shared handle if bound. -/
def SchedInfo.try_pgd (info : SchedInfo) : Option PageTableHandle := info.pgd

/-- Source `SchedInfo::dup_sched_info(pid)`: builds `SchedInfo::new(pid)`,
allocates a fresh kernel stack of `align_up_4k(THREAD_SIZE)` bytes, shares
the parent's `pgd` handle, and re-zeroes both identity counters. -/
def SchedInfo.dup_sched_info (parent : SchedInfo) (pid : Nat) (a : AllocState) :
    SchedInfo × AllocState :=
  let info := SchedInfo.new pid
  let alloc_res := TaskStack.alloc (align_up_4k THREAD_SIZE) a
  ({ info with
      kstack := some alloc_res.1
      pgd := parent.pgd
      mm_id := 0
      active_mm_id := 0 }, alloc_res.2)

/-- Source `SchedInfo::pt_regs()`:
`self.kstack.as_ref().unwrap().top() - align_down(TRAPFRAME_SIZE, STACK_ALIGN)`;
`none` models the `unwrap` panic when no stack is allocated.  The constants
`TRAPFRAME_SIZE` and `STACK_ALIGN` come from `axhal/src/arch/riscv/context.rs`,
which is not among the provided source files, so they are parameters here. -/
def SchedInfo.pt_regs (trapframe_size stack_align : Nat) (info : SchedInfo) :
    Option Nat :=
  match info.kstack with
  | some st => some (st.top - alignDown trapframe_size stack_align)
  | none => none

/-! ## Claims C5, C6, C8 -/

/-- Claim C5: on a block whose kernel stack is allocated, `pt_regs()`
returns `stack_top - align_down(TRAPFRAME_SIZE, STACK_ALIGN)` where the
stack top is the stack's base plus its size; on a block with no kernel
stack, `pt_regs()` hits the `unwrap` panic (modelled `none`) rather than
returning a recoverable value. -/
theorem c5_pt_regs_spec (trapframe_size stack_align : Nat) (info : SchedInfo) :
    (∀ st : TaskStack, info.kstack = some st →
      SchedInfo.pt_regs trapframe_size stack_align info =
        some (st.base + st.size - alignDown trapframe_size stack_align)) ∧
    (info.kstack = none →
      SchedInfo.pt_regs trapframe_size stack_align info = none) := by
  constructor
  · intro st hst
    simp [SchedInfo.pt_regs, hst, TaskStack.top]
  · intro hn
    simp [SchedInfo.pt_regs, hn]

/-- Witness for C5: a block with a concrete 16-byte-aligned stack of 512
bytes and the reference trap-frame sizing (trap frame 288 bytes, stack
alignment 16), and the stackless panic case. -/
theorem c5_pt_regs_spec_witness :
    SchedInfo.pt_regs 288 16 { SchedInfo.new 7 with kstack := some ⟨4096, 512⟩ } =
      some (4096 + 512 - alignDown 288 16) ∧
    SchedInfo.pt_regs 288 16 (SchedInfo.new 7) = none := by
  constructor
  · exact (c5_pt_regs_spec 288 16 { SchedInfo.new 7 with kstack := some ⟨4096, 512⟩ }).1
      ⟨4096, 512⟩ rfl
  · exact (c5_pt_regs_spec 288 16 (SchedInfo.new 7)).2 rfl

/-- Claim C6: duplicating a parent bound to address-space handle `H` yields
a child whose `try_pgd()` resolves to the same shared handle `H`, whose
kernel stack is freshly allocated with `align_up_4k(THREAD_SIZE)` bytes and
a `top()` distinct from the parent's (the fresh region lies beyond the
parent's live stack), whose `mm_id` and `active_mm_id` are both `0`
regardless of the parent's values, and whose saved register context is the
zero-initialized one, not a copy of the parent's. -/
theorem c6_dup_sched_info_spec (parent : SchedInfo) (pid : Nat) (a : AllocState)
    (H : PageTableHandle) (pstk : TaskStack)
    (hpgd : parent.pgd = some H) (hpstk : parent.kstack = some pstk)
    (hlive : pstk.top ≤ a.nextFree) :
    (parent.dup_sched_info pid a).1.try_pgd = some H ∧
    (∃ st : TaskStack, (parent.dup_sched_info pid a).1.kstack = some st ∧
      st.size = align_up_4k THREAD_SIZE ∧ st.top ≠ pstk.top) ∧
    (parent.dup_sched_info pid a).1.mm_id = 0 ∧
    (parent.dup_sched_info pid a).1.active_mm_id = 0 ∧
    (parent.dup_sched_info pid a).1.thread = ThreadStruct.new := by
  refine ⟨?_, ?_, rfl, rfl, rfl⟩
  · simp [SchedInfo.dup_sched_info, SchedInfo.try_pgd, SchedInfo.new, hpgd]
  · refine ⟨(TaskStack.alloc (align_up_4k THREAD_SIZE) a).1, rfl, rfl, ?_⟩
    have hbase : a.nextFree ≤ alignUp a.nextFree 16 := by
      unfold alignUp
      omega
    have hsz : 0 < align_up_4k THREAD_SIZE := by decide
    unfold TaskStack.alloc TaskStack.top at *
    simp only at *
    omega

/-- The concrete parent block used by the C6 witness: bound to handle
`⟨9, 0x8020000⟩`, with a live stack at `[0x1000, 0x21000)` and nonzero
identity counters. -/
def dupParent : SchedInfo :=
  { pid := 3
    tgid := 3
    pgd := some ⟨9, 0x8020000⟩
    mm_id := 5
    active_mm_id := 6
    kstack := some ⟨0x1000, 0x20000⟩
    thread := ⟨11, 12, 13⟩ }

/-- Witness for C6: `dupParent` duplicated from a concrete allocator state
whose frontier sits just past the parent's stack. -/
theorem c6_dup_sched_info_spec_witness :
    (SchedInfo.dup_sched_info dupParent 4 ⟨0x21000⟩).1.try_pgd = some ⟨9, 0x8020000⟩ ∧
    (∃ st : TaskStack,
      (SchedInfo.dup_sched_info dupParent 4 ⟨0x21000⟩).1.kstack = some st ∧
      st.size = align_up_4k THREAD_SIZE ∧ st.top ≠ TaskStack.top ⟨0x1000, 0x20000⟩) ∧
    (SchedInfo.dup_sched_info dupParent 4 ⟨0x21000⟩).1.mm_id = 0 ∧
    (SchedInfo.dup_sched_info dupParent 4 ⟨0x21000⟩).1.active_mm_id = 0 ∧
    (SchedInfo.dup_sched_info dupParent 4 ⟨0x21000⟩).1.thread = ThreadStruct.new :=
  c6_dup_sched_info_spec dupParent 4 ⟨0x21000⟩ ⟨9, 0x8020000⟩ ⟨0x1000, 0x20000⟩
    rfl rfl (by decide)

/-- Counterexample for C8 as stated: a successfully allocated stack of
requested size 8 (the allocator returns the 16-byte-aligned base 0) has
`top() = 8`, which is not 16-byte aligned — for any allocator honouring the
`Layout(size, 16)` contract, a 16-aligned base plus a size of 8 can never be
a multiple of 16. -/
theorem c8_top_alignment_counterexample :
    ¬ (16 ∣ (TaskStack.alloc 8 ⟨0⟩).1.top) := by
  decide

/-- Claim C8 (amended): for every successfully allocated kernel stack of
requested size `s`, `top()` equals the stack's base address plus `s`; and
whenever `s` is a multiple of 16 — as is every size the kernel actually
requests, `align_up_4k(THREAD_SIZE)` — the returned `top()` address is
aligned to at least 16 bytes. -/
theorem c8_top_spec (s : Nat) (a : AllocState) :
    (TaskStack.alloc s a).1.top = (TaskStack.alloc s a).1.base + s ∧
    (16 ∣ s → 16 ∣ (TaskStack.alloc s a).1.top) := by
  constructor
  · rfl
  · intro hs
    have hbase : 16 ∣ (TaskStack.alloc s a).1.base := by
      refine ⟨(a.nextFree + 16 - 1) / 16, ?_⟩
      unfold TaskStack.alloc alignUp
      simp [Nat.mul_comm]
    exact Nat.dvd_add hbase hs

/-- Witness for C8 (amended) at the size the kernel uses,
`align_up_4k(THREAD_SIZE) = 0x20000`, from allocator state 100. -/
theorem c8_top_spec_witness :
    (TaskStack.alloc (align_up_4k THREAD_SIZE) ⟨100⟩).1.top =
      (TaskStack.alloc (align_up_4k THREAD_SIZE) ⟨100⟩).1.base + align_up_4k THREAD_SIZE ∧
    16 ∣ (TaskStack.alloc (align_up_4k THREAD_SIZE) ⟨100⟩).1.top := by
  have h := c8_top_spec (align_up_4k THREAD_SIZE) ⟨100⟩
  exact ⟨h.1, h.2 (by decide)⟩

/-! ## Linux system-call handler (axsyscall/src/lib.rs)

The trap frame keeps the saved argument registers, the syscall-number
register `a7`, and the saved program counter `sepc`.  The individual
syscall routines that depend on out-of-scope modules (`task`, `axfile`,
`mmap`) are parameters of the dispatcher; a routine returning `none`
models a panic or a never-returning call (`task::exit`,
`unimplemented!()`). -/

structure GeneralRegisters where
  a0 : Nat
  a1 : Nat
  a2 : Nat
  a3 : Nat
  a7 : Nat
  deriving Repr, DecidableEq

structure TrapFrame where
  regs : GeneralRegisters
  sepc : Nat
  deriving Repr, DecidableEq

def LINUX_SYSCALL_OPENAT : Nat := 0x38
def LINUX_SYSCALL_CLOSE : Nat := 0x39
def LINUX_SYSCALL_READ : Nat := 0x3f
def LINUX_SYSCALL_WRITE : Nat := 0x40
def LINUX_SYSCALL_WRITEV : Nat := 0x42
def LINUX_SYSCALL_READLINKAT : Nat := 0x4e
def LINUX_SYSCALL_FSTATAT : Nat := 0x4f
def LINUX_SYSCALL_EXIT : Nat := 0x5d
def LINUX_SYSCALL_EXIT_GROUP : Nat := 0x53
def LINUX_SYSCALL_UNAME : Nat := 0xa0
def LINUX_SYSCALL_BRK : Nat := 0xd6
def LINUX_SYSCALL_MUNMAP : Nat := 0xd7
def LINUX_SYSCALL_MMAP : Nat := 0xde

/-- The value `usize::MAX` on riscv64, returned for `readlinkat`. -/
def USIZE_MAX : Nat := 2 ^ 64 - 1

/-- The semantics of the individual syscall routines whose bodies depend on
out-of-scope modules; each observes the trap frame and either returns a
result value or fails to return (`none` = panic / diverging call). -/
structure SyscallSem where
  openat : TrapFrame → Option Nat
  close : TrapFrame → Option Nat
  read : TrapFrame → Option Nat
  write : TrapFrame → Option Nat
  writev : TrapFrame → Option Nat
  uname : TrapFrame → Option Nat
  brk : TrapFrame → Option Nat
  mmap : TrapFrame → Option Nat

/-- The `match eid` dispatch inside `handle_syscall`: the value assigned to
`tf.regs.a0`.  `readlinkat`, `fstatat`, `exit_group` and the default arm
return fixed values; `exit` calls `task::exit` (never returns) and `munmap`
is `unimplemented!()` (panics), both modelled `none`. -/
def syscallDispatch (sem : SyscallSem) (tf : TrapFrame) : Option Nat :=
  if tf.regs.a7 = LINUX_SYSCALL_OPENAT then sem.openat tf
  else if tf.regs.a7 = LINUX_SYSCALL_CLOSE then sem.close tf
  else if tf.regs.a7 = LINUX_SYSCALL_READ then sem.read tf
  else if tf.regs.a7 = LINUX_SYSCALL_WRITE then sem.write tf
  else if tf.regs.a7 = LINUX_SYSCALL_WRITEV then sem.writev tf
  else if tf.regs.a7 = LINUX_SYSCALL_READLINKAT then some USIZE_MAX
  else if tf.regs.a7 = LINUX_SYSCALL_FSTATAT then some 0
  else if tf.regs.a7 = LINUX_SYSCALL_UNAME then sem.uname tf
  else if tf.regs.a7 = LINUX_SYSCALL_BRK then sem.brk tf
  else if tf.regs.a7 = LINUX_SYSCALL_MUNMAP then none
  else if tf.regs.a7 = LINUX_SYSCALL_MMAP then sem.mmap tf
  else if tf.regs.a7 = LINUX_SYSCALL_EXIT then none
  else if tf.regs.a7 = LINUX_SYSCALL_EXIT_GROUP then some 0
  else some 0

/-- Source `LinuxSyscallHandler::handle_syscall(tf)`: stores the dispatched
result into the saved `a0`, then executes `tf.sepc += 4`; if the dispatched
routine does not return, neither does the handler (`none`). -/
def handle_syscall (sem : SyscallSem) (tf : TrapFrame) : Option TrapFrame :=
  (syscallDispatch sem tf).map fun r =>
    { regs := { tf.regs with a0 := r }, sepc := tf.sepc + 4 }

/-- Source `linux_syscall_read`: the bounded scratch buffer is 1024 bytes. -/
def READ_BUF_LEN : Nat := 1024

/-- Writing `chunk` into `buf` starting at index `pos` (the effect of
`file.read(&mut buf[pos..])` returning `chunk.length` bytes). -/
def writeAt (buf : List Nat) (pos : Nat) (chunk : List Nat) : List Nat :=
  buf.take pos ++ chunk ++ buf.drop (pos + chunk.length)

/-- The `while pos < count` loop of `linux_syscall_read`: each iteration
reads from the file into `buf[pos..]` (the file yields as many of its
remaining bytes as fit), breaks on a zero-length read, and otherwise
advances `pos`.  The loop body runs at most `count` times because `pos`
strictly increases while `pos < count`, so the explicit fuel `count + 1`
never runs out (the proofs below never reach the fuel-0 clause). -/
def readLoop : Nat → List Nat → List Nat → Nat → Nat → Nat × List Nat
  | 0, _, buf, pos, _ => (pos, buf)
  | fuel + 1, fileRem, buf, pos, count =>
    if pos < count then
      if (fileRem.take (READ_BUF_LEN - pos)).length = 0 then (pos, buf)
      else
        readLoop fuel (fileRem.drop (READ_BUF_LEN - pos))
          (writeAt buf pos (fileRem.take (READ_BUF_LEN - pos)))
          (pos + (fileRem.take (READ_BUF_LEN - pos)).length) count
    else (pos, buf)

/-- Source `linux_syscall_read(tf)`, abstracted over the file contents (the
bytes remaining at the file's position; the fd lookup is assumed valid):
after `assert!(count < 1024)`, a zeroed 1024-byte buffer is filled by the
read loop, then `user_buf.copy_from_slice(&buf[..count])` writes the first
`count` bytes to user memory and the byte tally `pos` is returned.  `none`
models the failed assertion (panic). -/
def linux_syscall_read (file : List Nat) (count : Nat) : Option (Nat × List Nat) :=
  if count < READ_BUF_LEN then
    some ((readLoop (count + 1) file (List.replicate READ_BUF_LEN 0) 0 count).1,
      (readLoop (count + 1) file (List.replicate READ_BUF_LEN 0) 0 count).2.take count)
  else
    none

/-! ## Claim C9 -/

/-- Claim C9: whenever `handle_syscall` returns to its caller, the saved
program counter has been advanced by exactly 4 past the trapping
instruction, the system call's dispatched result has been stored in the
saved `a0`, and the remaining saved registers are untouched. -/
theorem c9_handle_syscall_spec (sem : SyscallSem) (tf tfAfter : TrapFrame)
    (hret : handle_syscall sem tf = some tfAfter) :
    tfAfter.sepc = tf.sepc + 4 ∧
    syscallDispatch sem tf = some tfAfter.regs.a0 ∧
    tfAfter.regs.a1 = tf.regs.a1 ∧
    tfAfter.regs.a2 = tf.regs.a2 ∧
    tfAfter.regs.a3 = tf.regs.a3 ∧
    tfAfter.regs.a7 = tf.regs.a7 := by
  unfold handle_syscall at hret
  cases hd : syscallDispatch sem tf with
  | none =>
    rw [hd] at hret
    simp at hret
  | some r =>
    rw [hd] at hret
    have hx : ({ regs := { tf.regs with a0 := r }, sepc := tf.sepc + 4 } : TrapFrame)
        = tfAfter := by simpa using hret
    subst hx
    exact ⟨rfl, rfl, rfl, rfl, rfl, rfl⟩

/-- The concrete syscall semantics used by the C9 witness: every modelled
routine returns 0 except `write`, which echoes back its byte count `a2`. -/
def demoSem : SyscallSem :=
  { openat := fun _ => some 0
    close := fun _ => some 0
    read := fun _ => some 0
    write := fun tf => some tf.regs.a2
    writev := fun _ => some 0
    uname := fun _ => some 0
    brk := fun _ => some 0
    mmap := fun _ => some 0 }

/-- Witness for C9: a `write(1, buf, 5)` trap frame at `sepc = 0x1000`. -/
theorem c9_handle_syscall_spec_witness :
    (handle_syscall demoSem ⟨⟨1, 0x4000, 5, 0, 0x40⟩, 0x1000⟩ =
      some ⟨⟨5, 0x4000, 5, 0, 0x40⟩, 0x1004⟩) ∧
    (0x1004 : Nat) = 0x1000 + 4 ∧
    syscallDispatch demoSem ⟨⟨1, 0x4000, 5, 0, 0x40⟩, 0x1000⟩ = some 5 := by
  have hcall : handle_syscall demoSem ⟨⟨1, 0x4000, 5, 0, 0x40⟩, 0x1000⟩ =
      some ⟨⟨5, 0x4000, 5, 0, 0x40⟩, 0x1004⟩ := by decide
  have h := c9_handle_syscall_spec demoSem ⟨⟨1, 0x4000, 5, 0, 0x40⟩, 0x1000⟩
    ⟨⟨5, 0x4000, 5, 0, 0x40⟩, 0x1004⟩ hcall
  exact ⟨hcall, h.1, h.2.1⟩

/-! ## Claim C10 -/

/-- Characterization of the read loop started at position 0 on the zeroed
1024-byte buffer: it pulls `min (file length) 1024` bytes out of the file
into the front of the buffer and stops. -/
theorem readLoop_from_zero (file : List Nat) (count : Nat)
    (h1 : 1 ≤ count) (h2 : count ≤ READ_BUF_LEN) :
    readLoop (count + 1) file (List.replicate READ_BUF_LEN 0) 0 count =
      (min file.length READ_BUF_LEN,
        file.take READ_BUF_LEN ++
          List.replicate (READ_BUF_LEN - min file.length READ_BUF_LEN) 0) := by
  obtain ⟨k, rfl⟩ : ∃ k, count = k + 1 := ⟨count - 1, by omega⟩
  by_cases hf : file = []
  · subst hf
    rw [readLoop]
    rw [if_pos (by omega)]
    rw [if_pos (by simp)]
    simp
  · have hfl : 0 < file.length := List.length_pos.mpr hf
    have hstep1 : readLoop (k + 1 + 1) file (List.replicate READ_BUF_LEN 0) 0 (k + 1) =
        readLoop (k + 1) (file.drop READ_BUF_LEN)
          (writeAt (List.replicate READ_BUF_LEN 0) 0 (file.take READ_BUF_LEN))
          (0 + (file.take READ_BUF_LEN).length) (k + 1) := by
      rw [readLoop]
      rw [if_pos (by omega)]
      rw [if_neg (by simp only [List.length_take, Nat.sub_zero]; omega)]
      simp only [Nat.sub_zero]
    have hlt : (file.take READ_BUF_LEN).length = min file.length READ_BUF_LEN := by
      simp [Nat.min_comm]
    have hbuf : writeAt (List.replicate READ_BUF_LEN 0) 0 (file.take READ_BUF_LEN) =
        file.take READ_BUF_LEN ++
          List.replicate (READ_BUF_LEN - min file.length READ_BUF_LEN) 0 := by
      unfold writeAt
      rw [hlt]
      simp [List.drop_replicate]
    rw [hstep1, Nat.zero_add, hlt, hbuf]
    rw [readLoop]
    by_cases hcont : min file.length READ_BUF_LEN < k + 1
    · rw [if_pos hcont]
      have hdrop : file.drop READ_BUF_LEN = [] :=
        List.drop_eq_nil_of_le (by omega)
      rw [if_pos (by rw [hdrop]; simp)]
    · rw [if_neg hcont]

/-- Claim C10: the read handler asserts `count < 1024`, so any invocation
with `count ≥ 1024` aborts (`none`) instead of returning; for `count <
1024` it returns, having written exactly `count` bytes into the user
buffer — the bytes actually read, padded beyond them with the zero filler
of the scratch buffer — with return value the total number of bytes pulled
out of the file (`min (file length) 1024`, except 0 when `count = 0`,
where the loop never runs). -/
theorem c10_linux_syscall_read_spec (file : List Nat) (count : Nat) :
    (READ_BUF_LEN ≤ count → linux_syscall_read file count = none) ∧
    (count < READ_BUF_LEN →
      linux_syscall_read file count =
        some (if count = 0 then 0 else min file.length READ_BUF_LEN,
          (file ++ List.replicate READ_BUF_LEN 0).take count) ∧
      ((file ++ List.replicate READ_BUF_LEN 0).take count).length = count) := by
  constructor
  · intro hge
    unfold linux_syscall_read
    rw [if_neg (by omega)]
  · intro hlt
    have hlen : ((file ++ List.replicate READ_BUF_LEN 0).take count).length = count := by
      simp only [List.length_take, List.length_append, List.length_replicate]
      omega
    refine ⟨?_, hlen⟩
    unfold linux_syscall_read
    rw [if_pos hlt]
    by_cases hc0 : count = 0
    · subst hc0
      have hL : readLoop (0 + 1) file (List.replicate READ_BUF_LEN 0) 0 0 =
          (0, List.replicate READ_BUF_LEN 0) := by
        rw [readLoop]
        rw [if_neg (by omega)]
      rw [hL]
      simp
    · rw [readLoop_from_zero file count (by omega) (by omega)]
      rw [if_neg hc0]
      dsimp only
      simp only [Option.some.injEq, Prod.mk.injEq]
      refine ⟨trivial, ?_⟩
      rw [List.take_append_eq_append_take, List.take_append_eq_append_take,
        List.take_take, List.take_replicate, List.take_replicate,
        List.length_take]
      congr 1
      · congr 1
        omega
      · congr 1
        omega

/-- Witness for C10: the abort at `count = 1024`, and a 4-byte request on a
2-byte file — 2 bytes arrive, 2 zero-filler bytes follow, 2 is returned. -/
theorem c10_linux_syscall_read_spec_witness :
    linux_syscall_read [5, 6] 1024 = none ∧
    linux_syscall_read [5, 6] 4 = some (2, [5, 6, 0, 0]) := by
  constructor
  · exact (c10_linux_syscall_read_spec [5, 6] 1024).1 (by decide)
  · have h := ((c10_linux_syscall_read_spec [5, 6] 4).2 (by decide)).1
    rw [h]
    rfl

end Starry
